import Mathlib

/-!
# ExecSpace `EnvironmentManager` — a shallow embedding

This file embeds `src/app/environments.py` (the `EnvironmentManager` class)
into Lean and proves the spec's claims about it.

Modelling choices, stated once:

* The ordinary file system (`/var/lib/execspace/environments`,
  `/var/log/execspace`) is a finite association list from absolute path to
  file content.  `Path.write_text` replaces the entry, `Path.unlink`
  removes it, `Path.read_text` looks it up.
* A per-environment control group (`/sys/fs/cgroup/execspace/<id>/`) is a
  kernel object, not an ordinary directory: its interface files
  (`cpu.max`, `memory.max`, `io.weight`, `cgroup.procs`) are modelled as
  fields of a `Cgroup` structure keyed by environment id.  `io.weight`
  exists only on hosts whose kernel exposes the io controller, which is
  what the code's `io_weight_file.exists()` test observes.
* `cgroup.subtree_control` is a cgroup-v2 control file: the kernel
  interprets every write of `"+<c>"` as the command "enable controller
  `<c>`" (opening the file with `O_TRUNC` does not erase previously
  enabled controllers), and reading it back lists the enabled
  controllers.  So it is modelled as a set of enabled controller names to
  which each write adds one name.
* Process liveness is a predicate `alive : Int → Bool`; `os.kill(pid, s)`
  raises `OSError` exactly when `alive pid = false`, and a delivered
  `SIGKILL` makes the target dead.  A delivered `SIGTERM` by itself is not
  modelled as terminating the target (the target may ignore it or still be
  shutting down when the grace interval ends); the unconditional `SIGKILL`
  that follows makes the final state independent of that choice.
* `stuck : Int → Bool` marks processes that remain listed in their
  group's `cgroup.procs` even after `SIGKILL` plus the settle interval
  (zombies awaiting reap, tasks in uninterruptible sleep).  A non-empty
  group is exactly what makes the group directory's `rmdir` raise.
* `procsWritable : Bool` models whether writes to a group's
  `cgroup.procs` succeed (they fail without root privilege); the code
  swallows that failure inside `_add_to_cgroup`.
* Python `float` values are modelled as rationals (every float is a
  rational; the products the claims are about, such as `0.5 * 100000`,
  are computed exactly in both arithmetics), and Python's unbounded `int`
  as `ℤ`.
-/

namespace ExecSpace

/-- Truncation of a rational toward zero: the value of Python's `int(x)`
on a (finite) float `x`. -/
def pyInt (q : ℚ) : ℤ :=
  if 0 ≤ q.num then ((q.num.toNat / q.den : ℕ) : ℤ)
  else -((q.num.natAbs / q.den : ℕ) : ℤ)

/-- Drop whitespace from both ends of a character list (`str.strip()`,
written over `String.data` so that concrete instances reduce in the
kernel). -/
def trimChars (l : List Char) : List Char :=
  ((l.dropWhile Char.isWhitespace).reverse.dropWhile Char.isWhitespace).reverse

/-- `str.strip()`. -/
def pyStrip (s : String) : String := String.mk (trimChars s.data)

/-- The value of a non-empty all-digit character list, `none` otherwise. -/
def digitChars (l : List Char) : Option Nat :=
  if l.isEmpty then none
  else if l.all Char.isDigit then
    some (l.foldl (fun acc c => acc * 10 + (c.toNat - 48)) 0)
  else none

/-- Python's `int(s)` on a string: surrounding whitespace is tolerated, an
optional sign is followed by decimal digits; any other shape raises
`ValueError`, modelled as `none`.  (Python additionally allows underscore
digit separators and non-ASCII digits; no artifact this program reads or
writes uses them.) -/
def pyParseInt (s : String) : Option Int :=
  match trimChars s.data with
  | '-' :: rest => (digitChars rest).map (fun n => -(n : Int))
  | '+' :: rest => (digitChars rest).map (fun n => (n : Int))
  | rest => (digitChars rest).map (fun n => (n : Int))

/-- The ordinary file system: absolute path ↦ content.  Paths are unique
(`fsWrite` replaces). -/
abbrev Fs := List (String × String)

/-- `Path.read_text` / `Path.exists` on a regular file. -/
def fsRead (fs : Fs) (p : String) : Option String :=
  (fs.find? (fun e => e.1 == p)).map (fun e => e.2)

/-- `Path.write_text` on a regular file: create or replace. -/
def fsWrite (fs : Fs) (p c : String) : Fs :=
  (p, c) :: fs.filter (fun e => !(e.1 == p))

/-- `Path.unlink(missing_ok=True)`. -/
def fsUnlink (fs : Fs) (p : String) : Fs :=
  fs.filter (fun e => !(e.1 == p))

/-- One per-environment control group `/sys/fs/cgroup/execspace/<id>/`,
as the kernel exposes it. -/
structure Cgroup where
  /-- content of `cpu.max` (`none` would mean the cpu controller is absent;
  the code writes it unconditionally and would raise if it were). -/
  cpuMax : Option String
  /-- content of `memory.max`. -/
  memoryMax : Option String
  /-- content of `io.weight`; `none` on hosts without the io controller,
  which is what `io_weight_file.exists()` sees. -/
  ioWeight : Option String
  /-- the pids listed in `cgroup.procs`. -/
  procs : List Int
deriving DecidableEq

/-- A freshly created cgroup, populated by the kernel with default
interface files.  `io.weight` appears only when the host supports the io
controller. -/
def freshCgroup (ioSupported : Bool) : Cgroup :=
  { cpuMax := some "max 100000\n"
    memoryMax := some "max\n"
    ioWeight := if ioSupported then some "default 100\n" else none
    procs := [] }

/-- A `cgroup.subtree_control` file (one exists at the system root and one
at `/sys/fs/cgroup/execspace` once that group exists). -/
structure SubtreeControl where
  /-- whether the file is present (`subtree.exists()` in the code). -/
  present : Bool
  /-- whether writes to it succeed; a failed write raises and the code
  swallows the exception. -/
  writable : Bool
  /-- the controllers currently enabled: each accepted write of `"+<c>"`
  adds `<c>`. -/
  enabled : List String
deriving DecidableEq

/-- Writing `"+<c>"` to a `cgroup.subtree_control` file: the kernel adds
the controller to the enabled set; a failure (no privilege, unknown
controller) leaves the set unchanged and raises, which the caller
swallows. -/
def subtreeEnable (ctl : SubtreeControl) (c : String) : SubtreeControl :=
  if ctl.writable then
    { ctl with enabled := if c ∈ ctl.enabled then ctl.enabled else ctl.enabled ++ [c] }
  else ctl

/-- The state every manager operation reads and writes: the file system,
the cgroup tree, and the process table. -/
structure World where
  /-- regular files (`*.pid`, `*.sh`, `*.log`). -/
  fs : Fs
  /-- per-environment cgroups, keyed by environment id. -/
  cgroups : List (String × Cgroup)
  /-- whether signal delivery to a pid succeeds (`os.kill` raises iff not). -/
  alive : Int → Bool
  /-- processes that stay listed in `cgroup.procs` after `SIGKILL` plus the
  settle interval (zombies, uninterruptible sleep). -/
  stuck : Int → Bool
  /-- whether writes to `cgroup.procs` files succeed (root privilege). -/
  procsWritable : Bool
  /-- whether the host kernel exposes the io controller's `io.weight`. -/
  ioweightSupported : Bool
  /-- `cgroup.subtree_control` at the system root `/sys/fs/cgroup`. -/
  rootCtl : SubtreeControl
  /-- `cgroup.subtree_control` at `/sys/fs/cgroup/execspace`. -/
  execCtl : SubtreeControl
  /-- whether the base group `/sys/fs/cgroup/execspace` exists. -/
  baseCgroupExists : Bool
  /-- the pid the next spawned process receives. -/
  nextPid : Int

attribute [ext] World

/-- `self.environments_dir`. -/
def environments_dir : String := "/var/lib/execspace/environments"

/-- `self.logs_dir`. -/
def logs_dir : String := "/var/log/execspace"

/-- `self.environments_dir / f"{env_id}.pid"`. -/
def pidPath (env_id : String) : String := environments_dir ++ "/" ++ env_id ++ ".pid"

/-- `self.environments_dir / f"{env_id}.sh"`. -/
def scriptPath (env_id : String) : String := environments_dir ++ "/" ++ env_id ++ ".sh"

/-- `self.logs_dir / f"{env_id}.log"`. -/
def logPath (env_id : String) : String := logs_dir ++ "/" ++ env_id ++ ".log"

/-- `self.cgroup_root / "execspace" / env_id` rendered as a path. -/
def cgroupPathStr (env_id : String) : String := "/sys/fs/cgroup/execspace/" ++ env_id

/-- Look a cgroup up by environment id. -/
def cgLookup (l : List (String × Cgroup)) (env_id : String) : Option Cgroup :=
  (l.find? (fun e => e.1 == env_id)).map (fun e => e.2)

/-- Create or replace the cgroup of an environment id. -/
def cgSet (l : List (String × Cgroup)) (env_id : String) (cg : Cgroup) :
    List (String × Cgroup) :=
  (env_id, cg) :: l.filter (fun e => !(e.1 == env_id))

/-- `rmdir` of an environment's group directory (only called once the
group is empty; on a non-empty group `rmdir` raises instead). -/
def cgErase (l : List (String × Cgroup)) (env_id : String) : List (String × Cgroup) :=
  l.filter (fun e => !(e.1 == env_id))

/-- Delivery of a fatal signal: the target no longer accepts signals. -/
def killPid (w : World) (pid : Int) : World :=
  { w with alive := fun p => if p = pid then false else w.alive p }

/-- The configuration record the caller hands to `create_and_run_environment`
(`EnvironmentConfig` in the code). -/
structure EnvironmentConfig where
  env_id : String
  script_content : String
  /-- fractional cores; a Python float, modelled as the rational it denotes. -/
  cpu_limit : ℚ
  memory_mb : ℤ
  io_weight : ℤ
  name : String

/-- `EnvironmentManager._init_base_cgroup`: make sure
`/sys/fs/cgroup/execspace` exists, then write `"+cpu\n"`, `"+memory\n"`,
`"+io\n"` to `cgroup.subtree_control` at the system root and at the base
group, skipping a file that does not exist and swallowing every write
failure; the surrounding handler makes the whole step non-fatal. -/
def _init_base_cgroup (w : World) : World :=
  -- execspace_cgroup.mkdir(exist_ok=True)
  let w := { w with baseCgroupExists := true }
  -- needed_controllers = ["cpu", "memory", "io"], written at both levels
  let enableAll := fun (ctl : SubtreeControl) =>
    if ctl.present then (["cpu", "memory", "io"].foldl subtreeEnable ctl) else ctl
  { w with rootCtl := enableAll w.rootCtl, execCtl := enableAll w.execCtl }

/-- `EnvironmentManager._create_cgroup`: `mkdir(parents=True, exist_ok=True)`
of `/sys/fs/cgroup/execspace/{env_id}`, returning its path.  An existing
group is kept as is; a new one carries the kernel's default interface
files. -/
def _create_cgroup (w : World) (env_id : String) : World × String :=
  let cg := (cgLookup w.cgroups env_id).getD (freshCgroup w.ioweightSupported)
  ({ w with cgroups := cgSet w.cgroups env_id cg }, cgroupPathStr env_id)

/-- `EnvironmentManager._configure_resource_limits`, acting on the group the
path names: write `cpu.max`, write `memory.max`, and write `io.weight` only
if that interface file exists (an io write failure would also be swallowed;
the first two writes are unguarded in the code). -/
def _configure_resource_limits (cg : Cgroup) (config : EnvironmentConfig) : Cgroup :=
  -- cpu_quota = int(config.cpu_limit * 100000); cpu_period = 100000
  let cpu_quota : ℤ := pyInt (config.cpu_limit * 100000)
  let cpu_period : ℤ := 100000
  let cg := { cg with cpuMax := some (toString cpu_quota ++ " " ++ toString cpu_period ++ "\n") }
  -- memory_bytes = config.memory_mb * 1024 * 1024
  let memory_bytes : ℤ := config.memory_mb * 1024 * 1024
  let cg := { cg with memoryMax := some (toString memory_bytes ++ "\n") }
  -- if io_weight_file.exists(): write "default {io_weight}"
  if cg.ioWeight.isSome then
    { cg with ioWeight := some ("default " ++ toString config.io_weight ++ "\n") }
  else cg

/-- `EnvironmentManager._save_script`: write the script body to
`<environments_dir>/<env_id>.sh` and mark it executable (the 0755 mode bit
is not part of the model), returning the path. -/
def _save_script (w : World) (env_id : String) (script_content : String) : World × String :=
  ({ w with fs := fsWrite w.fs (scriptPath env_id) script_content }, scriptPath env_id)

/-- `EnvironmentManager._build_unshare_command`: the argv of the
namespace-isolation invocation. -/
def _build_unshare_command (script_path : String) : List String :=
  ["unshare", "--pid", "--mount", "--uts", "--ipc", "--fork", "--mount-proc",
   "bash", script_path]

/-- `EnvironmentManager._add_to_cgroup`, run inside the freshly forked
child: write the child's own pid to the group's `cgroup.procs`; any failure
(missing group, no privilege) is logged and swallowed.  Returns whether the
write succeeded. -/
def _add_to_cgroup (w : World) (env_id : String) (pid : Int) : World × Bool :=
  match cgLookup w.cgroups env_id with
  | some cg =>
      if w.procsWritable then
        ({ w with cgroups := cgSet w.cgroups env_id { cg with procs := cg.procs ++ [pid] } }, true)
      else (w, false)
  | none => (w, false)

/-- `EnvironmentManager._get_pid`: read `<env_id>.pid`, strip it, parse it
with `int()`; a missing file or a parse failure yields `None`, never an
exception. -/
def _get_pid (w : World) (env_id : String) : Option Int :=
  match fsRead w.fs (pidPath env_id) with
  | some pid_content => pyParseInt (pyStrip pid_content)
  | none => none

/-- `EnvironmentManager.get_environment_status`: `"ERROR"` when `_get_pid`
yields nothing usable (`if not pid` also rejects the integer 0), otherwise
probe with `os.kill(pid, 0)` — success is `"RUNNING"`, an `OSError` is
`"EXITED"`. -/
def get_environment_status (w : World) (env_id : String) : String :=
  match _get_pid w env_id with
  | none => "ERROR"
  | some pid =>
      if pid = 0 then "ERROR"
      else if w.alive pid then "RUNNING" else "EXITED"

/-- `EnvironmentManager.get_environment_logs`: the log file's content, or a
sentinel when it is absent. -/
def get_environment_logs (w : World) (env_id : String) : String :=
  match fsRead w.fs (logPath env_id) with
  | some logs => logs
  | none => "Sem logs disponíveis"

/-- A signal `stop_environment` sends. -/
inductive Sig where
  | sigterm : Sig
  | sigkill : Sig
deriving DecidableEq

/-- One observable step of `stop_environment`: an `os.kill` call (made
whether or not the target is alive) or a `time.sleep`. -/
inductive SysCall where
  | kill : Int → Sig → SysCall
  | sleepSec : Nat → SysCall
deriving DecidableEq

/-- What `stop_environment` returns: its boolean result, the state it
leaves, and the calls it made. -/
structure StopOut where
  ok : Bool
  world : World
  trace : List SysCall

/-- `EnvironmentManager.stop_environment`: no usable pid (`if not pid`,
which also rejects 0) returns `False`; otherwise `os.kill(pid, SIGTERM)`
then `time.sleep(1)` — the sleep is reached only when the SIGTERM delivery
did not raise — with `OSError` swallowed, then `os.kill(pid, SIGKILL)` with
`OSError` swallowed, and `True`. -/
def stop_environment (w : World) (env_id : String) : StopOut :=
  match _get_pid w env_id with
  | none => { ok := false, world := w, trace := [] }
  | some pid =>
      if pid = 0 then { ok := false, world := w, trace := [] }
      else
        let graceful : List SysCall :=
          if w.alive pid then [.kill pid .sigterm, .sleepSec 1] else [.kill pid .sigterm]
        { ok := true
          world := killPid w pid
          trace := graceful ++ [.kill pid .sigkill] }

/-- `EnvironmentManager.remove_environment`: stop (result ignored); if the
group exists, `SIGKILL` every pid its `cgroup.procs` lists (`OSError` per
pid swallowed; each listed pid is the decimal rendering of an integer, so
`int()` cannot raise here), sleep 0.5, then `rmdir` the group — which
raises on a group that is still non-empty, and that exception reaches the
outer handler, which returns `False` *without* running the file-removal
step; otherwise unlink the pid, script and log files (`missing_ok`) and
return `True`. -/
def remove_environment (w : World) (env_id : String) : Bool × World :=
  -- 1. self.stop_environment(env_id), return value discarded
  let w1 := (stop_environment w env_id).world
  -- 2. kill the group's remaining members, settle, rmdir
  match cgLookup w1.cgroups env_id with
  | some cg =>
      let w2 := cg.procs.foldl killPid w1
      -- after time.sleep(0.5): killed members have left cgroup.procs,
      -- stuck ones (unreaped zombies, D-state tasks) remain
      let remaining := cg.procs.filter w1.stuck
      if remaining.isEmpty then
        let w3 := { w2 with cgroups := cgErase w2.cgroups env_id }
        -- 3. unlink {env_id}.pid, {env_id}.sh, {env_id}.log
        let fs := fsUnlink (fsUnlink (fsUnlink w3.fs (pidPath env_id)) (scriptPath env_id))
          (logPath env_id)
        (true, { w3 with fs := fs })
      else
        -- cgroup_path.rmdir() raised; the except-branch logs and returns False
        (false, { w2 with cgroups := cgSet w2.cgroups env_id { cg with procs := remaining } })
  | none =>
      let fs := fsUnlink (fsUnlink (fsUnlink w1.fs (pidPath env_id)) (scriptPath env_id))
        (logPath env_id)
      (true, { w1 with fs := fs })

/-- The stem of a path `glob("*.pid")` over `environments_dir` reports: the
path must sit directly in that directory (no `/` in the name), end in
`.pid`, and not be a hidden file (glob skips names starting with `.`). -/
def pidFileStem (p : String) : Option String :=
  let pre := (environments_dir ++ "/").data
  let pd := p.data
  if pre.isPrefixOf pd then
    let name := pd.drop pre.length
    let hidden := match name with
      | '.' :: _ => true
      | _ => false
    if ['.', 'p', 'i', 'd'].isSuffixOf name && !hidden && !name.contains '/' then
      some (String.mk (name.take (name.length - 4)))
    else none
  else none

/-- `EnvironmentManager.list_environments`: one `{id, status}` entry per
`*.pid` artifact in `environments_dir`. -/
def list_environments (w : World) : List (String × String) :=
  (w.fs.filterMap (fun e => pidFileStem e.1)).map
    (fun env_id => (env_id, get_environment_status w env_id))

/-- One observable step of `create_and_run_environment`, in the order the
code performs them. -/
inductive Event where
  /-- `_create_cgroup`: mkdir of the environment's group. -/
  | mkdirGroup : Event
  /-- `_configure_resource_limits`: the `cpu.max` write. -/
  | writeCpuMax : Event
  /-- `_configure_resource_limits`: the `memory.max` write. -/
  | writeMemoryMax : Event
  /-- `_configure_resource_limits`: the guarded `io.weight` write. -/
  | writeIoWeight : Event
  /-- `_save_script`: the `<id>.sh` write. -/
  | writeScript : Event
  /-- `open(log_file, 'w')`. -/
  | openLog : Event
  /-- `subprocess.Popen` forks the child. -/
  | forkChild : Int → Event
  /-- the pre-exec hook `_add_to_cgroup` runs in the child; the flag
  records whether the `cgroup.procs` write succeeded. -/
  | preexecJoin : Int → Bool → Event
  /-- the child's exec of the unshare command completes. -/
  | execChild : Int → Event
  /-- the `<id>.pid` write. -/
  | writePidFile : Int → Event
deriving DecidableEq

/-- The dictionary `create_and_run_environment` returns. -/
structure CreateResult where
  env_id : String
  pid : Int
  status : String
  cgroup : String
  log_file : String

/-- What `create_and_run_environment` produces: the returned dictionary,
the state it leaves, and its observable steps in order. -/
structure CreateOut where
  result : CreateResult
  world : World
  trace : List Event

/-- `EnvironmentManager.create_and_run_environment` on the path where no
step raises: create the group, apply the limits, save the script, build the
argv, open the log, spawn the child through `unshare` with the pre-exec
hook joining it to the group before exec, then persist the pid. -/
def create_and_run_environment (w : World) (config : EnvironmentConfig) : CreateOut :=
  -- cgroup_path = self._create_cgroup(config.env_id)
  let created := _create_cgroup w config.env_id
  let w1 := created.1
  -- the group `_configure_resource_limits` writes through cgroup_path
  let cg0 := (cgLookup w1.cgroups config.env_id).getD (freshCgroup w.ioweightSupported)
  -- self._configure_resource_limits(cgroup_path, config)
  let w2 := { w1 with cgroups := cgSet w1.cgroups config.env_id (_configure_resource_limits cg0 config) }
  -- script_path = self._save_script(config.env_id, config.script_content)
  let saved := _save_script w2 config.env_id config.script_content
  let w3 := saved.1
  -- command = self._build_unshare_command(script_path, config.env_id)
  let _command := _build_unshare_command saved.2
  -- with open(log_file, 'w') as log: (creates/truncates the log file)
  let w4 := { w3 with fs := fsWrite w3.fs (logPath config.env_id) "" }
  -- process = subprocess.Popen(command, ..., preexec_fn=lambda: self._add_to_cgroup(config.env_id))
  let pid := w4.nextPid
  let joined := _add_to_cgroup w4 config.env_id pid
  let w5 := { joined.1 with
    alive := fun p => if p = pid then true else joined.1.alive p
    nextPid := joined.1.nextPid + 1 }
  -- (self.environments_dir / f"{config.env_id}.pid").write_text(str(process.pid))
  let w6 := { w5 with fs := fsWrite w5.fs (pidPath config.env_id) (toString pid) }
  { result :=
      { env_id := config.env_id
        pid := pid
        status := "running"
        cgroup := created.2
        log_file := logPath config.env_id }
    world := w6
    trace := [.mkdirGroup, .writeCpuMax, .writeMemoryMax]
      ++ (if cg0.ioWeight.isSome then [.writeIoWeight] else [])
      ++ [.writeScript, .openLog, .forkChild pid, .preexecJoin pid joined.2,
          .execChild pid, .writePidFile pid] }

/-! ## Concrete inputs used by the witness theorems -/

/-- A host with root privilege, io-controller support, both
`cgroup.subtree_control` files writable, and nothing created yet. -/
def baseWorld : World :=
  { fs := []
    cgroups := []
    alive := fun _ => false
    stuck := fun _ => false
    procsWritable := true
    ioweightSupported := true
    rootCtl := { present := true, writable := true, enabled := [] }
    execCtl := { present := true, writable := true, enabled := [] }
    baseCgroupExists := false
    nextPid := 100 }

/-- A demonstration configuration (the spec's round-trip numbers). -/
def demoConfig : EnvironmentConfig :=
  { env_id := "e1"
    script_content := "echo hi"
    cpu_limit := 1/2
    memory_mb := 256
    io_weight := 500
    name := "demo" }

/-- A world where environment `e1` has a recorded pid 42 and that process
is still alive. -/
def pidWorld : World :=
  { baseWorld with
    fs := [(pidPath "e1", "42")]
    alive := fun p => p == 42 }

/-- The group of `e1` with its limits applied and one member, pid 43. -/
def busyCgroup : Cgroup :=
  { cpuMax := some "50000 100000\n"
    memoryMax := some "268435456\n"
    ioWeight := some "default 500\n"
    procs := [43] }

/-- A world where `e1` has all three file artifacts and a resource group
whose member 43 survives `SIGKILL` plus the settle interval (an unreaped
zombie), so the group directory cannot be removed. -/
def busyWorld : World :=
  { baseWorld with
    fs := [(pidPath "e1", "42"), (scriptPath "e1", "echo hi"), (logPath "e1", "hi\n")]
    cgroups := [("e1", busyCgroup)]
    alive := fun p => p == 42 || p == 43
    stuck := fun p => p == 43 }

/-- `busyWorld` with the group member reapable: cleanup can finish. -/
def reapableWorld : World :=
  { busyWorld with stuck := fun _ => false }

/-- A host without the privilege to write `cgroup.procs` files. -/
def unprivWorld : World :=
  { baseWorld with procsWritable := false }

/-- `a` occurs strictly before `b` in the trace `tr`. -/
def precedes {α : Type} (a b : α) (tr : List α) : Prop :=
  ∃ l₁ l₂ l₃, tr = l₁ ++ a :: l₂ ++ b :: l₃

/-! ## Helper lemmas -/

theorem pyInt_intCast (z : ℤ) : pyInt (z : ℚ) = z := by
  unfold pyInt
  rw [Rat.num_intCast, Rat.den_intCast]
  by_cases h : 0 ≤ z
  · simp [h, Int.toNat_of_nonneg h]
  · rw [if_neg (by omega)]
    simp only [Nat.div_one]
    omega

theorem fsRead_fsWrite_self (fs : Fs) (p c : String) :
    fsRead (fsWrite fs p c) p = some c := by
  simp [fsRead, fsWrite, List.find?]

theorem fsRead_fsUnlink_self (fs : Fs) (p : String) :
    fsRead (fsUnlink fs p) p = none := by
  induction fs with
  | nil => rfl
  | cons e t ih =>
      unfold fsUnlink at ih ⊢
      rw [List.filter_cons]
      cases h : (e.1 == p) with
      | true => simp [h, ih]
      | false => simp [fsRead, List.find?_cons, h, ih]

theorem fsRead_fsUnlink_of_none (fs : Fs) (p q : String) (h : fsRead fs p = none) :
    fsRead (fsUnlink fs q) p = none := by
  induction fs with
  | nil => rfl
  | cons e t ih =>
      unfold fsUnlink at ih ⊢
      rw [List.filter_cons]
      cases hp : (e.1 == p) with
      | true =>
          exfalso
          simp [fsRead, List.find?_cons, hp] at h
      | false =>
          have ht : fsRead t p = none := by
            simpa [fsRead, List.find?_cons, hp] using h
          cases hq : (!(e.1 == q)) with
          | false => exact ih ht
          | true => simpa [fsRead, List.find?_cons, hp] using ih ht

theorem cgLookup_cgSet_self (l : List (String × Cgroup)) (k : String) (cg : Cgroup) :
    cgLookup (cgSet l k cg) k = some cg := by
  simp [cgLookup, cgSet, List.find?]

theorem stop_world_fs (w : World) (env_id : String) :
    (stop_environment w env_id).world.fs = w.fs := by
  unfold stop_environment
  cases _get_pid w env_id with
  | none => rfl
  | some pid =>
      by_cases h0 : pid = 0 <;> simp [h0, killPid]

theorem stop_world_cgroups (w : World) (env_id : String) :
    (stop_environment w env_id).world.cgroups = w.cgroups := by
  unfold stop_environment
  cases _get_pid w env_id with
  | none => rfl
  | some pid =>
      by_cases h0 : pid = 0 <;> simp [h0, killPid]

theorem stop_world_stuck (w : World) (env_id : String) :
    (stop_environment w env_id).world.stuck = w.stuck := by
  unfold stop_environment
  cases _get_pid w env_id with
  | none => rfl
  | some pid =>
      by_cases h0 : pid = 0 <;> simp [h0, killPid]

theorem configure_cpuMax_isSome (cg : Cgroup) (config : EnvironmentConfig) :
    (_configure_resource_limits cg config).cpuMax.isSome = true := by
  simp only [_configure_resource_limits]
  split <;> rfl

theorem configure_memoryMax_isSome (cg : Cgroup) (config : EnvironmentConfig) :
    (_configure_resource_limits cg config).memoryMax.isSome = true := by
  simp only [_configure_resource_limits]
  split <;> rfl

theorem configure_procs (cg : Cgroup) (config : EnvironmentConfig) :
    (_configure_resource_limits cg config).procs = cg.procs := by
  simp only [_configure_resource_limits]
  split <;> rfl

theorem subtreeEnable_writable (ctl : SubtreeControl) (c : String) :
    (subtreeEnable ctl c).writable = ctl.writable := by
  unfold subtreeEnable
  split <;> rfl

theorem mem_subtreeEnable_self (ctl : SubtreeControl) (c : String)
    (h : ctl.writable = true) : c ∈ (subtreeEnable ctl c).enabled := by
  simp only [subtreeEnable, h, if_true]
  by_cases hc : c ∈ ctl.enabled
  · simp only [if_pos hc]
    exact hc
  · simp [hc]

theorem mem_subtreeEnable_mono (ctl : SubtreeControl) (c x : String)
    (h : x ∈ ctl.enabled) : x ∈ (subtreeEnable ctl c).enabled := by
  unfold subtreeEnable
  split
  · by_cases hc : c ∈ ctl.enabled <;> simp [hc, h]
  · exact h

/-! ## C1 — resource-limit encoding -/

/-- **C1.** For every group and configuration, `_configure_resource_limits`
writes `cpu.max` as `"<quota> <period>"` with quota `= cpu_limit * 100000`
(the product is the integer `z`; Python's `int()` truncation is the
identity on it) and period fixed at `100000`; writes `memory.max` as
exactly `memory_mb * 1024 * 1024` bytes; and writes `io.weight` as
`"default <io_weight>"` only when that controller file is present, leaving
it untouched — and failing nothing, the function is total — otherwise. -/
theorem configure_resource_limits_spec (cg : Cgroup) (config : EnvironmentConfig)
    (z : ℤ) (hz : config.cpu_limit * 100000 = (z : ℚ)) :
    ((_configure_resource_limits cg config).cpuMax
        = some (toString z ++ " " ++ toString (100000 : ℤ) ++ "\n")) ∧
    ((_configure_resource_limits cg config).memoryMax
        = some (toString (config.memory_mb * 1024 * 1024) ++ "\n")) ∧
    (cg.ioWeight.isSome = true →
      (_configure_resource_limits cg config).ioWeight
        = some ("default " ++ toString config.io_weight ++ "\n")) ∧
    (cg.ioWeight.isSome = false →
      (_configure_resource_limits cg config).ioWeight = cg.ioWeight) := by
  simp only [_configure_resource_limits, hz, pyInt_intCast]
  by_cases hio : cg.ioWeight.isSome = true <;> simp [hio]

/-- **C1 witness.** The spec's round-trip numbers: `cpu_limit = 0.5` is
written as quota exactly `50000` with period `100000`, `memory_mb = 256`
as exactly `268435456` bytes, and the present `io.weight` file gets
`"default 500"`. -/
theorem configure_resource_limits_spec_witness :
    demoConfig.cpu_limit * 100000 = ((50000 : ℤ) : ℚ) ∧
    (_configure_resource_limits (freshCgroup true) demoConfig).cpuMax
      = some "50000 100000\n" ∧
    (_configure_resource_limits (freshCgroup true) demoConfig).memoryMax
      = some "268435456\n" ∧
    (_configure_resource_limits (freshCgroup true) demoConfig).ioWeight
      = some "default 500\n" := by
  have hz : demoConfig.cpu_limit * 100000 = ((50000 : ℤ) : ℚ) := by
    show (1/2 : ℚ) * 100000 = ((50000 : ℤ) : ℚ)
    norm_num
  obtain ⟨h1, h2, h3, -⟩ :=
    configure_resource_limits_spec (freshCgroup true) demoConfig 50000 hz
  exact ⟨hz, h1.trans (by decide), h2.trans (by decide), (h3 (by decide)).trans (by decide)⟩

/-! ## C2 — status derivation -/

/-- **C2.** `get_environment_status` is total (never raises); it returns
`"ERROR"` exactly when `_get_pid` obtains no usable pid (file absent,
unparsable, or the unusable recorded pid 0, which `if not pid` rejects);
when a usable pid is obtained it returns `"RUNNING"` when the signal-0
probe succeeds and `"EXITED"` when the probe fails for any reason; and an
identifier with no pid file — in particular a never-created one — yields
`"ERROR"`. -/
theorem get_environment_status_spec (w : World) (env_id : String) :
    (get_environment_status w env_id = "ERROR" ↔
      _get_pid w env_id = none ∨ _get_pid w env_id = some 0) ∧
    (∀ pid : Int, _get_pid w env_id = some pid → pid ≠ 0 →
      get_environment_status w env_id = if w.alive pid then "RUNNING" else "EXITED") ∧
    (fsRead w.fs (pidPath env_id) = none → get_environment_status w env_id = "ERROR") := by
  refine ⟨?_, ?_, ?_⟩
  · unfold get_environment_status
    cases h : _get_pid w env_id with
    | none => simp
    | some pid =>
        show (if pid = 0 then "ERROR" else if w.alive pid = true then "RUNNING" else "EXITED")
            = "ERROR" ↔ some pid = none ∨ some pid = some 0
        by_cases h0 : pid = 0
        · subst h0
          simp
        · rw [if_neg h0]
          constructor
          · intro hst
            exfalso
            revert hst
            split <;> decide
          · rintro (hc | hc) <;> simp_all
  · intro pid hp hne
    unfold get_environment_status
    rw [hp]
    exact if_neg hne
  · intro h
    unfold get_environment_status _get_pid
    rw [h]

/-! ## C3 / C10 — stop -/

theorem stop_eq_none (w : World) (env_id : String) (h : _get_pid w env_id = none) :
    stop_environment w env_id = { ok := false, world := w, trace := [] } := by
  unfold stop_environment
  rw [h]

theorem stop_eq_zero (w : World) (env_id : String) (h : _get_pid w env_id = some 0) :
    stop_environment w env_id = { ok := false, world := w, trace := [] } := by
  unfold stop_environment
  rw [h]
  simp

theorem stop_eq_of_pid (w : World) (env_id : String) (pid : Int)
    (h : _get_pid w env_id = some pid) (h0 : pid ≠ 0) :
    stop_environment w env_id =
      { ok := true
        world := killPid w pid
        trace := (if w.alive pid then [SysCall.kill pid .sigterm, .sleepSec 1]
                  else [SysCall.kill pid .sigterm]) ++ [.kill pid .sigkill] } := by
  unfold stop_environment
  rw [h]
  simp [h0]

/-- **C3.** `stop_environment` returns failure exactly when no usable pid
could be found (missing/unparsable pid file, or the unusable recorded
pid 0); when a pid is found it sends `SIGTERM`, waits the fixed 1-second
grace interval (the wait belongs to the graceful branch: a `SIGTERM` that
raises because the process is already dead skips it), then sends `SIGKILL`
regardless of whether the process already exited, and an already-dead
process is still reported as success; and calling `stop` twice in a row
leaves the same state as calling it once, with the second call returning
the same (successful) result. -/
theorem stop_environment_spec (w : World) (env_id : String) :
    ((stop_environment w env_id).ok = false ↔
      _get_pid w env_id = none ∨ _get_pid w env_id = some 0) ∧
    (∀ pid : Int, _get_pid w env_id = some pid → pid ≠ 0 →
      (stop_environment w env_id).ok = true ∧
      SysCall.kill pid .sigkill ∈ (stop_environment w env_id).trace ∧
      (w.alive pid = true →
        (stop_environment w env_id).trace
          = [.kill pid .sigterm, .sleepSec 1, .kill pid .sigkill]) ∧
      (w.alive pid = false →
        (stop_environment w env_id).trace = [.kill pid .sigterm, .kill pid .sigkill])) ∧
    ((stop_environment (stop_environment w env_id).world env_id).world
        = (stop_environment w env_id).world ∧
      (stop_environment (stop_environment w env_id).world env_id).ok
        = (stop_environment w env_id).ok) := by
  refine ⟨?_, ?_, ?_⟩
  · cases h : _get_pid w env_id with
    | none => simp [stop_eq_none w env_id h, h]
    | some pid =>
        by_cases h0 : pid = 0
        · subst h0
          simp [stop_eq_zero w env_id h, h]
        · rw [stop_eq_of_pid w env_id pid h h0]
          simp [h, h0]
  · intro pid hp h0
    rw [stop_eq_of_pid w env_id pid hp h0]
    refine ⟨rfl, ?_, fun ha => by simp [ha], fun ha => by simp [ha]⟩
    by_cases ha : w.alive pid <;> simp [ha]
  · cases h : _get_pid w env_id with
    | none =>
        have hE := stop_eq_none w env_id h
        constructor <;> simp only [hE]
    | some pid =>
        by_cases h0 : pid = 0
        · subst h0
          have hE := stop_eq_zero w env_id h
          constructor <;> simp only [hE]
        · have hE := stop_eq_of_pid w env_id pid h h0
          have h2 : _get_pid (killPid w pid) env_id = some pid := h
          have hE2 := stop_eq_of_pid (killPid w pid) env_id pid h2 h0
          constructor
          · simp only [hE, hE2]
            show killPid (killPid w pid) pid = killPid w pid
            refine World.ext rfl rfl ?_ rfl rfl rfl rfl rfl rfl rfl
            funext p
            by_cases hp : p = pid <;> simp [killPid, hp]
          · simp only [hE, hE2]

/-- **C10.** `stop_environment` only sends signals: it leaves the file
system (pid, script and log files) and the resource-group tree unchanged;
consequently after a successful stop the environment still appears in
`list_environments` — derived from the surviving pid file — and its status
is `"EXITED"`, not `"ERROR"`. -/
theorem stop_environment_frame (w : World) (env_id : String)
    (hid : pidFileStem (pidPath env_id) = some env_id) :
    (stop_environment w env_id).world.fs = w.fs ∧
    (stop_environment w env_id).world.cgroups = w.cgroups ∧
    ((stop_environment w env_id).ok = true →
      get_environment_status (stop_environment w env_id).world env_id = "EXITED" ∧
      (env_id, "EXITED") ∈ list_environments (stop_environment w env_id).world) := by
  refine ⟨stop_world_fs w env_id, stop_world_cgroups w env_id, ?_⟩
  intro hok
  cases h : _get_pid w env_id with
  | none =>
      rw [stop_eq_none w env_id h] at hok
      simp at hok
  | some pid =>
      by_cases h0 : pid = 0
      · subst h0
        rw [stop_eq_zero w env_id h] at hok
        simp at hok
      · have hE := stop_eq_of_pid w env_id pid h h0
        have hW : (stop_environment w env_id).world = killPid w pid := by rw [hE]
        have hpid2 : _get_pid (killPid w pid) env_id = some pid := h
        have hstatus : get_environment_status (killPid w pid) env_id = "EXITED" := by
          unfold get_environment_status
          rw [hpid2]
          show (if pid = 0 then "ERROR"
              else if (killPid w pid).alive pid = true then "RUNNING" else "EXITED") = "EXITED"
          rw [if_neg h0]
          simp [killPid]
        obtain ⟨content, hc⟩ : ∃ c, fsRead w.fs (pidPath env_id) = some c := by
          unfold _get_pid at h
          cases hr : fsRead w.fs (pidPath env_id) with
          | none =>
              rw [hr] at h
              exact absurd h (by simp)
          | some c => exact ⟨c, rfl⟩
        obtain ⟨e, he, hep⟩ : ∃ e ∈ w.fs, e.1 = pidPath env_id := by
          unfold fsRead at hc
          cases hf : w.fs.find? (fun e => e.1 == pidPath env_id) with
          | none =>
              rw [hf] at hc
              exact absurd hc (by simp)
          | some e =>
              have hpa := List.find?_some hf
              exact ⟨e, List.mem_of_find?_eq_some hf, eq_of_beq hpa⟩
        rw [hW]
        refine ⟨hstatus, ?_⟩
        unfold list_environments
        refine List.mem_map.mpr ⟨env_id, List.mem_filterMap.mpr ⟨e, ?_, ?_⟩, ?_⟩
        · show e ∈ w.fs
          exact he
        · rw [hep, hid]
        · rw [hstatus]

/-- **C10 witness.** On a world where `e1` has pid file content `"42"` and
that process is alive, stop succeeds, changes no artifacts, and leaves
`e1` listed with status `"EXITED"`. -/
theorem stop_environment_frame_witness :
    pidFileStem (pidPath "e1") = some "e1" ∧
    ((stop_environment pidWorld "e1").world.fs = pidWorld.fs ∧
      (stop_environment pidWorld "e1").world.cgroups = pidWorld.cgroups ∧
      ((stop_environment pidWorld "e1").ok = true →
        get_environment_status (stop_environment pidWorld "e1").world "e1" = "EXITED" ∧
        ("e1", "EXITED") ∈ list_environments (stop_environment pidWorld "e1").world)) := by
  exact ⟨by decide, stop_environment_frame pidWorld "e1" (by decide)⟩

/-! ## C4 / C5 — remove -/

theorem foldl_killPid_fs (l : List Int) (w : World) :
    (l.foldl killPid w).fs = w.fs := by
  induction l generalizing w with
  | nil => rfl
  | cons p t ih => simp [List.foldl, killPid, ih]

theorem foldl_killPid_cgroups (l : List Int) (w : World) :
    (l.foldl killPid w).cgroups = w.cgroups := by
  induction l generalizing w with
  | nil => rfl
  | cons p t ih => simp [List.foldl, killPid, ih]

theorem cgLookup_cgErase_self (l : List (String × Cgroup)) (k : String) :
    cgLookup (cgErase l k) k = none := by
  induction l with
  | nil => rfl
  | cons e t ih =>
      unfold cgErase at ih ⊢
      rw [List.filter_cons]
      cases h : (e.1 == k) with
      | true => simp [h, ih]
      | false => simp [cgLookup, List.find?_cons, h, ih]

/-- **C4 counterexample.** For the identifier `"ghost"`, which has no pid
file, no script, no log and no resource group — an unknown identifier with
no locatable artifact — `remove_environment` reports overall *success*,
not the failure the claim requires. -/
theorem remove_unknown_id_reports_success :
    fsRead baseWorld.fs (pidPath "ghost") = none ∧
    fsRead baseWorld.fs (scriptPath "ghost") = none ∧
    fsRead baseWorld.fs (logPath "ghost") = none ∧
    cgLookup baseWorld.cgroups "ghost" = none ∧
    (remove_environment baseWorld "ghost").1 = true := by
  decide

/-- **C4 (amended).** `remove_environment` reports failure exactly when a
cleanup step raises — in this model, when the identifier's resource group
exists and still has members after the force-kill and settle interval, so
that deleting the group directory fails.  For an unknown identifier with
no artifacts it reports success (the unlinks are `missing_ok` and the
ignored `stop` failure is swallowed). -/
theorem remove_environment_failure_iff (w : World) (env_id : String) :
    (remove_environment w env_id).1 = false ↔
      ∃ cg, cgLookup w.cgroups env_id = some cg ∧ cg.procs.filter w.stuck ≠ [] := by
  simp only [remove_environment, stop_world_cgroups, stop_world_stuck]
  cases hcg : cgLookup w.cgroups env_id with
  | none => simp
  | some cg =>
      by_cases hemp : (cg.procs.filter w.stuck).isEmpty
      · have he : cg.procs.filter w.stuck = [] := by
          cases hf : cg.procs.filter w.stuck with
          | nil => rfl
          | cons a t =>
              rw [hf] at hemp
              exact absurd hemp (by simp)
        simp [hemp, he]
        intro x hx
        by_contra hsx
        have hxmem : x ∈ cg.procs.filter w.stuck :=
          List.mem_filter.mpr ⟨hx, by simpa using hsx⟩
        rw [he] at hxmem
        exact absurd hxmem (List.not_mem_nil x)
      · have he : cg.procs.filter w.stuck ≠ [] := by
          intro hf
          rw [hf] at hemp
          exact hemp rfl
        simp [hemp, he]
        cases hf : cg.procs.filter w.stuck with
        | nil => exact absurd hf he
        | cons a t =>
            have ha : a ∈ cg.procs.filter w.stuck := by
              rw [hf]
              exact List.mem_cons_self a t
            have hm := List.mem_filter.mp ha
            exact ⟨a, hm.1, hm.2⟩

/-- **C5 counterexample.** Environment `e1` has its three file artifacts
and a resource group with the unreapable member 43: deleting the group
directory fails, `remove_environment` returns failure, and — against the
claim — the pid, script and log files are all still present afterwards. -/
theorem remove_busy_group_aborts_cleanup :
    busyCgroup.procs.filter busyWorld.stuck ≠ [] ∧
    (remove_environment busyWorld "e1").1 = false ∧
    fsRead (remove_environment busyWorld "e1").2.fs (pidPath "e1") = some "42" ∧
    fsRead (remove_environment busyWorld "e1").2.fs (scriptPath "e1") = some "echo hi" ∧
    fsRead (remove_environment busyWorld "e1").2.fs (logPath "e1") = some "hi\n" := by
  decide

/-- **C5 (amended).** Within `remove_environment`, the failure of `stop`
and the per-member kill failures are swallowed (a group whose listed
members are already dead is still cleaned up completely: success, all
three files gone, group gone) — but a failure to delete the resource-group
directory is *not* swallowed: it aborts the remaining cleanup, so the pid,
script and log files are left exactly as they were and failure is
returned. -/
theorem remove_environment_cleanup_spec (w : World) (env_id : String) (cg : Cgroup)
    (hcg : cgLookup w.cgroups env_id = some cg) :
    (cg.procs.filter w.stuck = [] →
      (remove_environment w env_id).1 = true ∧
      fsRead (remove_environment w env_id).2.fs (pidPath env_id) = none ∧
      fsRead (remove_environment w env_id).2.fs (scriptPath env_id) = none ∧
      fsRead (remove_environment w env_id).2.fs (logPath env_id) = none ∧
      cgLookup (remove_environment w env_id).2.cgroups env_id = none) ∧
    (cg.procs.filter w.stuck ≠ [] →
      (remove_environment w env_id).1 = false ∧
      (remove_environment w env_id).2.fs = w.fs) := by
  constructor
  · intro hclean
    simp only [remove_environment, stop_world_cgroups, stop_world_stuck, hcg, hclean]
    simp only [List.isEmpty_nil, if_true]
    refine ⟨trivial, ?_, ?_, ?_, ?_⟩
    · exact fsRead_fsUnlink_of_none _ _ _
        (fsRead_fsUnlink_of_none _ _ _ (fsRead_fsUnlink_self _ _))
    · exact fsRead_fsUnlink_of_none _ _ _ (fsRead_fsUnlink_self _ _)
    · exact fsRead_fsUnlink_self _ _
    · exact cgLookup_cgErase_self _ _
  · intro hbusy
    have hemp : (cg.procs.filter w.stuck).isEmpty = false := by
      cases hf : cg.procs.filter w.stuck with
      | nil => exact absurd hf hbusy
      | cons a t => rfl
    simp only [remove_environment, stop_world_cgroups, stop_world_stuck, hcg, hemp,
      Bool.false_eq_true, if_false]
    exact ⟨trivial, by rw [foldl_killPid_fs, stop_world_fs]⟩

/-- **C5 witness.** With the group member reapable, remove succeeds and
removes every artifact: the swallowed per-step failures did not abort
cleanup. -/
theorem remove_environment_cleanup_spec_witness :
    cgLookup reapableWorld.cgroups "e1" = some busyCgroup ∧
    busyCgroup.procs.filter reapableWorld.stuck = [] ∧
    ((remove_environment reapableWorld "e1").1 = true ∧
      fsRead (remove_environment reapableWorld "e1").2.fs (pidPath "e1") = none ∧
      fsRead (remove_environment reapableWorld "e1").2.fs (scriptPath "e1") = none ∧
      fsRead (remove_environment reapableWorld "e1").2.fs (logPath "e1") = none ∧
      cgLookup (remove_environment reapableWorld "e1").2.cgroups "e1" = none) := by
  refine ⟨by decide, by decide, ?_⟩
  exact (remove_environment_cleanup_spec reapableWorld "e1" busyCgroup (by decide)).1 (by decide)

/-! ## C6 — base-hierarchy initialization -/

theorem mem_foldl_enable (ctl : SubtreeControl) (h : ctl.writable = true) :
    "cpu" ∈ (["cpu", "memory", "io"].foldl subtreeEnable ctl).enabled ∧
    "memory" ∈ (["cpu", "memory", "io"].foldl subtreeEnable ctl).enabled ∧
    "io" ∈ (["cpu", "memory", "io"].foldl subtreeEnable ctl).enabled := by
  have h1 : (subtreeEnable ctl "cpu").writable = true := by
    rw [subtreeEnable_writable]
    exact h
  have h2 : (subtreeEnable (subtreeEnable ctl "cpu") "memory").writable = true := by
    rw [subtreeEnable_writable]
    exact h1
  refine ⟨?_, ?_, ?_⟩
  · exact mem_subtreeEnable_mono _ _ _
      (mem_subtreeEnable_mono _ _ _ (mem_subtreeEnable_self ctl "cpu" h))
  · exact mem_subtreeEnable_mono _ _ _ (mem_subtreeEnable_self _ "memory" h1)
  · exact mem_subtreeEnable_self _ "io" h2

/-- **C6.** `_init_base_cgroup` ensures the manager's base control group
exists, and — when both `cgroup.subtree_control` files are present and
writable — leaves the cpu, memory and io controllers all enabled at the
system root and at the manager's root; it is a total function whose
failures are swallowed, and it touches nothing `create` depends on (file
system, per-environment groups and process table are unchanged). -/
theorem init_base_cgroup_spec (w : World)
    (hrp : w.rootCtl.present = true) (hrw : w.rootCtl.writable = true)
    (hep : w.execCtl.present = true) (hew : w.execCtl.writable = true) :
    (_init_base_cgroup w).baseCgroupExists = true ∧
    ("cpu" ∈ (_init_base_cgroup w).rootCtl.enabled ∧
      "memory" ∈ (_init_base_cgroup w).rootCtl.enabled ∧
      "io" ∈ (_init_base_cgroup w).rootCtl.enabled) ∧
    ("cpu" ∈ (_init_base_cgroup w).execCtl.enabled ∧
      "memory" ∈ (_init_base_cgroup w).execCtl.enabled ∧
      "io" ∈ (_init_base_cgroup w).execCtl.enabled) ∧
    (_init_base_cgroup w).fs = w.fs ∧
    (_init_base_cgroup w).cgroups = w.cgroups ∧
    (_init_base_cgroup w).alive = w.alive := by
  have hroot := mem_foldl_enable w.rootCtl hrw
  have hexec := mem_foldl_enable w.execCtl hew
  simp only [_init_base_cgroup, hrp, hep, if_true]
  exact ⟨trivial, hroot, hexec, trivial, trivial, trivial⟩

/-- **C6 witness.** On a host with both subtree-control files present and
writable, initialization enables all three controllers at both levels. -/
theorem init_base_cgroup_spec_witness :
    baseWorld.rootCtl.present = true ∧ baseWorld.rootCtl.writable = true ∧
    baseWorld.execCtl.present = true ∧ baseWorld.execCtl.writable = true ∧
    ((_init_base_cgroup baseWorld).baseCgroupExists = true ∧
      ("cpu" ∈ (_init_base_cgroup baseWorld).rootCtl.enabled ∧
        "memory" ∈ (_init_base_cgroup baseWorld).rootCtl.enabled ∧
        "io" ∈ (_init_base_cgroup baseWorld).rootCtl.enabled) ∧
      ("cpu" ∈ (_init_base_cgroup baseWorld).execCtl.enabled ∧
        "memory" ∈ (_init_base_cgroup baseWorld).execCtl.enabled ∧
        "io" ∈ (_init_base_cgroup baseWorld).execCtl.enabled) ∧
      (_init_base_cgroup baseWorld).fs = baseWorld.fs ∧
      (_init_base_cgroup baseWorld).cgroups = baseWorld.cgroups ∧
      (_init_base_cgroup baseWorld).alive = baseWorld.alive) := by
  exact ⟨rfl, rfl, rfl, rfl, init_base_cgroup_spec baseWorld rfl rfl rfl rfl⟩

/-! ## C7 / C8 / C9 — create -/

/-- **C7.** Within one `create_and_run_environment` call, the creation of
the environment's resource group strictly precedes the `cpu.max` and
`memory.max` limit writes, which strictly precede saving the script, which
strictly precedes forking the isolated process, which strictly precedes
the pid-file write; hence in the final state the pid file holds the
spawned pid while the resource group already exists with its cpu and
memory limit files set. -/
theorem create_ordering_spec (w : World) (config : EnvironmentConfig) :
    precedes Event.mkdirGroup Event.writeCpuMax
      (create_and_run_environment w config).trace ∧
    precedes Event.mkdirGroup Event.writeMemoryMax
      (create_and_run_environment w config).trace ∧
    precedes Event.writeCpuMax Event.writeScript
      (create_and_run_environment w config).trace ∧
    precedes Event.writeMemoryMax Event.writeScript
      (create_and_run_environment w config).trace ∧
    precedes Event.writeScript
      (Event.forkChild (create_and_run_environment w config).result.pid)
      (create_and_run_environment w config).trace ∧
    precedes (Event.forkChild (create_and_run_environment w config).result.pid)
      (Event.writePidFile (create_and_run_environment w config).result.pid)
      (create_and_run_environment w config).trace ∧
    fsRead (create_and_run_environment w config).world.fs (pidPath config.env_id)
      = some (toString (create_and_run_environment w config).result.pid) ∧
    (∃ cg, cgLookup (create_and_run_environment w config).world.cgroups config.env_id
        = some cg ∧ cg.cpuMax.isSome = true ∧ cg.memoryMax.isSome = true) := by
  simp only [create_and_run_environment, _create_cgroup, _save_script, _add_to_cgroup,
    cgLookup_cgSet_self, Option.getD_some]
  refine ⟨?_, ?_, ?_, ?_, ?_, ?_, ?_, ?_⟩
  · by_cases hio : ((cgLookup w.cgroups config.env_id).getD
        (freshCgroup w.ioweightSupported)).ioWeight.isSome = true <;>
      simp only [hio, if_true, if_false, Bool.not_eq_true] <;>
      exact ⟨[], [], _, rfl⟩
  · by_cases hio : ((cgLookup w.cgroups config.env_id).getD
        (freshCgroup w.ioweightSupported)).ioWeight.isSome = true <;>
      simp only [hio, if_true, if_false, Bool.not_eq_true]
    · exact ⟨[], [Event.writeCpuMax], _, rfl⟩
    · exact ⟨[], [Event.writeCpuMax], _, rfl⟩
  · by_cases hio : ((cgLookup w.cgroups config.env_id).getD
        (freshCgroup w.ioweightSupported)).ioWeight.isSome = true <;>
      simp only [hio, if_true, if_false, Bool.not_eq_true]
    · exact ⟨[Event.mkdirGroup], [Event.writeMemoryMax, Event.writeIoWeight], _, rfl⟩
    · exact ⟨[Event.mkdirGroup], [Event.writeMemoryMax], _, rfl⟩
  · by_cases hio : ((cgLookup w.cgroups config.env_id).getD
        (freshCgroup w.ioweightSupported)).ioWeight.isSome = true <;>
      simp only [hio, if_true, if_false, Bool.not_eq_true]
    · exact ⟨[Event.mkdirGroup, Event.writeCpuMax], [Event.writeIoWeight], _, rfl⟩
    · exact ⟨[Event.mkdirGroup, Event.writeCpuMax], [], _, rfl⟩
  · by_cases hio : ((cgLookup w.cgroups config.env_id).getD
        (freshCgroup w.ioweightSupported)).ioWeight.isSome = true <;>
      simp only [hio, if_true, if_false, Bool.not_eq_true]
    · exact ⟨[Event.mkdirGroup, Event.writeCpuMax, Event.writeMemoryMax,
        Event.writeIoWeight], [Event.openLog], _, rfl⟩
    · exact ⟨[Event.mkdirGroup, Event.writeCpuMax, Event.writeMemoryMax],
        [Event.openLog], _, rfl⟩
  · by_cases hio : ((cgLookup w.cgroups config.env_id).getD
        (freshCgroup w.ioweightSupported)).ioWeight.isSome = true <;>
      simp only [hio, if_true, if_false, Bool.not_eq_true]
    · exact ⟨[Event.mkdirGroup, Event.writeCpuMax, Event.writeMemoryMax,
        Event.writeIoWeight, Event.writeScript, Event.openLog], [_, _], [], rfl⟩
    · exact ⟨[Event.mkdirGroup, Event.writeCpuMax, Event.writeMemoryMax,
        Event.writeScript, Event.openLog], [_, _], [], rfl⟩
  · exact fsRead_fsWrite_self _ _ _
  · by_cases hpw : w.procsWritable = true <;>
      simp only [hpw, if_true, if_false, Bool.false_eq_true, Bool.not_eq_true,
        cgLookup_cgSet_self]
    · exact ⟨_, rfl, configure_cpuMax_isSome _ _, configure_memoryMax_isSome _ _⟩
    · exact ⟨_, rfl, configure_cpuMax_isSome _ _, configure_memoryMax_isSome _ _⟩

/-- **C8.** With the privilege to write `cgroup.procs` files, the pre-exec
hook runs in the spawned child and successfully writes the child's own pid
into the target group's membership file strictly before the child's exec
of the isolation command completes — so after `create` the group's member
list contains the child's pid (join-group-before-exec). -/
theorem preexec_join_spec (w : World) (config : EnvironmentConfig)
    (hpw : w.procsWritable = true) :
    precedes (Event.preexecJoin (create_and_run_environment w config).result.pid true)
      (Event.execChild (create_and_run_environment w config).result.pid)
      (create_and_run_environment w config).trace ∧
    (∃ cg, cgLookup (create_and_run_environment w config).world.cgroups config.env_id
        = some cg ∧ (create_and_run_environment w config).result.pid ∈ cg.procs) := by
  simp only [create_and_run_environment, _create_cgroup, _save_script, _add_to_cgroup,
    cgLookup_cgSet_self, Option.getD_some, hpw, if_true]
  constructor
  · by_cases hio : ((cgLookup w.cgroups config.env_id).getD
        (freshCgroup w.ioweightSupported)).ioWeight.isSome = true <;>
      simp only [hio, if_true, if_false, Bool.not_eq_true]
    · exact ⟨[Event.mkdirGroup, Event.writeCpuMax, Event.writeMemoryMax,
        Event.writeIoWeight, Event.writeScript, Event.openLog, _], [], [_], rfl⟩
    · exact ⟨[Event.mkdirGroup, Event.writeCpuMax, Event.writeMemoryMax,
        Event.writeScript, Event.openLog, _], [], [_], rfl⟩
  · refine ⟨_, rfl, ?_⟩
    simp

/-- **C8 witness.** On a privileged host, the join event precedes exec and
the spawned pid is a member of the environment's group. -/
theorem preexec_join_spec_witness :
    baseWorld.procsWritable = true ∧
    (precedes
        (Event.preexecJoin (create_and_run_environment baseWorld demoConfig).result.pid true)
        (Event.execChild (create_and_run_environment baseWorld demoConfig).result.pid)
        (create_and_run_environment baseWorld demoConfig).trace ∧
      (∃ cg, cgLookup (create_and_run_environment baseWorld demoConfig).world.cgroups
          demoConfig.env_id = some cg ∧
        (create_and_run_environment baseWorld demoConfig).result.pid ∈ cg.procs)) := by
  exact ⟨rfl, preexec_join_spec baseWorld demoConfig rfl⟩

/-- **C9.** When the pre-exec hook cannot write the child's pid into the
group's `cgroup.procs` (no privilege), the failure is only logged: `create`
still completes, returns a result with status `"running"`, persists the
pid file — but the process is left outside its (fresh, hence empty)
resource group. -/
theorem preexec_join_failure_spec (w : World) (config : EnvironmentConfig)
    (hpw : w.procsWritable = false) (hfresh : cgLookup w.cgroups config.env_id = none) :
    (create_and_run_environment w config).result.status = "running" ∧
    fsRead (create_and_run_environment w config).world.fs (pidPath config.env_id)
      = some (toString (create_and_run_environment w config).result.pid) ∧
    Event.preexecJoin (create_and_run_environment w config).result.pid false
      ∈ (create_and_run_environment w config).trace ∧
    (∃ cg, cgLookup (create_and_run_environment w config).world.cgroups config.env_id
        = some cg ∧ cg.procs = []) := by
  simp only [create_and_run_environment, _create_cgroup, _save_script, _add_to_cgroup,
    cgLookup_cgSet_self, Option.getD_some, Option.getD_none, hpw, hfresh,
    Bool.false_eq_true, if_false]
  refine ⟨trivial, fsRead_fsWrite_self _ _ _, ?_, ?_⟩
  · simp [List.mem_append]
  · refine ⟨_, rfl, ?_⟩
    rw [configure_procs]
    rfl

/-- **C9 witness.** On an unprivileged host, `create` of a fresh
environment still reports `"running"` and writes the pid file, while the
group stays empty. -/
theorem preexec_join_failure_spec_witness :
    unprivWorld.procsWritable = false ∧
    cgLookup unprivWorld.cgroups demoConfig.env_id = none ∧
    ((create_and_run_environment unprivWorld demoConfig).result.status = "running" ∧
      fsRead (create_and_run_environment unprivWorld demoConfig).world.fs
          (pidPath demoConfig.env_id)
        = some (toString (create_and_run_environment unprivWorld demoConfig).result.pid) ∧
      Event.preexecJoin (create_and_run_environment unprivWorld demoConfig).result.pid false
        ∈ (create_and_run_environment unprivWorld demoConfig).trace ∧
      (∃ cg, cgLookup (create_and_run_environment unprivWorld demoConfig).world.cgroups
          demoConfig.env_id = some cg ∧ cg.procs = [])) := by
  exact ⟨rfl, rfl, preexec_join_failure_spec unprivWorld demoConfig rfl rfl⟩

end ExecSpace
